import Mathlib

/-!
Verification of the FranchiseDecisionLab metric/heuristic subsystem.

The Python sources (`utils.py`, `heuristics.py`, `generator.py`) are shallowly
embedded below.  Python strings are modelled as `List Char`, Python dicts as
association lists in insertion order (keys unique by construction of a dict),
machine integers as `Int` (Python ints are unbounded), floats by exact rational
arithmetic (every concrete value checked here is far from an integer boundary,
so the double-precision rounding error of the source cannot change the
truncated result), and fallible operations return `Option`.  Calls to the
remote completion service and to the random number generator are parametrised:
a theorem about a code path that consumes a response or a random draw
quantifies over an explicit outcome value, constrained only by what the
library guarantees (for `random.randint a b`: a result in `[a, b]`).
-/

namespace FDL

/-- Characters of a string; Python `str` values are modelled as `List Char`. -/
def pstr (s : String) : List Char := s.data

/-- Python dict read `d[k]`: first binding wins; `none` models a `KeyError`. -/
def dget {κ β : Type} [DecidableEq κ] : List (κ × β) → κ → Option β
  | [], _ => none
  | (k, v) :: rest, key => if k = key then some v else dget rest key

/-- Python dict write `d[k] = v`: replaces the first binding of `k`, or
appends a new binding at the end (Python insertion order). -/
def dset {κ β : Type} [DecidableEq κ] : List (κ × β) → κ → β → List (κ × β)
  | [], key, val => [(key, val)]
  | (k, v) :: rest, key, val =>
    if k = key then (k, val) :: rest else (k, v) :: dset rest key val

/-- The keys of a dict, in insertion order. -/
def dkeys {κ β : Type} (d : List (κ × β)) : List κ := d.map Prod.fst

/-- A Python dict of metric name to integer value. -/
abbrev PyDict := List (String × Int)

/-- `INITIAL_METRICS` from utils.py. -/
def INITIAL_METRICS : PyDict :=
  [("cash_flow", 100000), ("customer_satisfaction", 50),
   ("growth_potential", 50), ("risk_level", 30)]

/-- One iteration of the loop in `apply_metric_impacts` (utils.py): read the
current value (KeyError when absent), add the impact, and clamp to `[0, 100]`
unless the metric is `cash_flow`.  The two successive writes of the source
(`+=` then conditional clamp) are fused into the single final write. -/
def applyOne (d : PyDict) (k : String) (impact : Int) : Option PyDict :=
  match dget d k with
  | none => none
  | some cur =>
    let raw := cur + impact
    some (dset d k (if k ≠ "cash_flow" then max 0 (min 100 raw) else raw))

/-- The `for metric, impact in impacts.items()` loop of `apply_metric_impacts`,
iterating in the dict's insertion order. -/
def applyAll : PyDict → PyDict → Option PyDict
  | d, [] => some d
  | d, (k, v) :: rest =>
    match applyOne d k v with
    | none => none
    | some d2 => applyAll d2 rest

/-- `apply_metric_impacts` (utils.py).  The source first takes a copy of
`current_metrics` and then updates the copy, so the input dict is never
mutated; the embedding returns the updated copy. -/
def apply_metric_impacts (current_metrics impacts : PyDict) : Option PyDict :=
  applyAll current_metrics impacts

/-- Numeric core of `calculate_business_health` (utils.py).  The float
expression is modelled by exact rational arithmetic; `int()` truncates toward
zero, which on the nonnegative argument produced by `max(0, ...)` coincides
with the floor. -/
def healthFromValues (cf cs gp rl : Int) : Int :=
  let health_score : ℚ :=
    (0.4 : ℚ) * min ((cf : ℚ) / 100000) 1 + (0.3 : ℚ) * ((cs : ℚ) / 100)
      + (0.2 : ℚ) * ((gp : ℚ) / 100) - (0.1 : ℚ) * ((rl : ℚ) / 100)
  Int.floor (max 0 (min 100 (health_score * 100)))

/-- `calculate_business_health` (utils.py): reads the four metric keys
(`KeyError`, i.e. `none`, when one is absent) and combines them. -/
def calculate_business_health (metrics : PyDict) : Option Int :=
  match dget metrics "cash_flow", dget metrics "customer_satisfaction",
        dget metrics "growth_potential", dget metrics "risk_level" with
  | some cf, some cs, some gp, some rl => some (healthFromValues cf cs gp rl)
  | _, _, _, _ => none

/-- `get_business_status` (utils.py). -/
def get_business_status (health_score : Int) : String × String :=
  if health_score ≥ 80 then
    ("Thriving", "Your franchise is in excellent condition with strong financials and growth.")
  else if health_score ≥ 60 then
    ("Stable", "Your franchise is performing well with good prospects.")
  else if health_score ≥ 40 then
    ("Challenged", "Your franchise faces some challenges but remains viable.")
  else if health_score ≥ 20 then
    ("Struggling", "Your franchise is experiencing significant difficulties and needs attention.")
  else
    ("Critical", "Your franchise is in critical condition and at risk of failure.")

/-- ASCII model of Python `str.lower` (every keyword tested below is ASCII). -/
def pyLower (s : List Char) : List Char := s.map Char.toLower

/-- `needle` is an initial segment of `hay`. -/
def leadsWith : List Char → List Char → Bool
  | [], _ => true
  | _ :: _, [] => false
  | a :: as, b :: bs => a == b && leadsWith as bs

/-- Python substring test `needle in hay`. -/
def hasSub (needle : List Char) : List Char → Bool
  | [] => needle.isEmpty
  | c :: rest => leadsWith needle (c :: rest) || hasSub needle rest

/-- Characters stripped by Python `str.strip()`. -/
def isPySpace (c : Char) : Bool :=
  c == ' ' || c == '\t' || c == '\n' || c == '\r' || c == '\x0b' || c == '\x0c'

/-- Python `str.strip()`: drop whitespace from both ends. -/
def pyStrip (s : List Char) : List Char :=
  ((s.dropWhile isPySpace).reverse.dropWhile isPySpace).reverse

/-- Python `str.split(sep)` for a one-character separator: never collapses
separators and always yields at least one (possibly empty) piece. -/
def splitChar (sep : Char) : List Char → List (List Char)
  | [] => [[]]
  | c :: rest =>
    match splitChar sep rest with
    | [] => [[]]
    | cur :: done => if c = sep then [] :: cur :: done else (c :: cur) :: done

/-- Python `any(word in text for word in words)`. -/
def kwAny (text : List Char) (words : List (List Char)) : Bool :=
  words.any (fun w => hasSub w text)

/-- One catalog record of `HeuristicsModel.heuristics` (heuristics.py). -/
structure HeuristicInfo where
  name : String
  description : String
  applicability : String
  limitations : String
deriving DecidableEq

/-- The loaded heuristics catalog: a dict from heuristic id to its record. -/
abbrev Catalog := List (List Char × HeuristicInfo)

/-- One element of the list built by `get_relevant_heuristics`. -/
structure SelectedHeuristic where
  id : List Char
  name : String
  description : String
  applicability : String
  limitations : String
deriving DecidableEq

/-- The dict literal appended for a selected id in `get_relevant_heuristics`. -/
def mkSelected (hid : List Char) (info : HeuristicInfo) : SelectedHeuristic :=
  ⟨hid, info.name, info.description, info.applicability, info.limitations⟩

/-- Outcome of one call to the completion endpoint, as observed by the caller:
either some exception was raised inside the `try` block, or a response
arrived with the given status code and extracted `object` payload
(`response.json().get('object', '')`). -/
inductive ApiOutcome where
  | exn : ApiOutcome
  | resp (status : Nat) (object : List Char) : ApiOutcome
deriving DecidableEq

/-- The entry-building loops of `get_relevant_heuristics`: each id is looked
up in the catalog and turned into a selected-heuristic record; an id with no
catalog entry contributes nothing.  On the API path the skip is the source's
explicit `if heuristic_id in self.heuristics` guard; on the fallback path
`random.sample` draws from the catalog's own keys, so every lookup succeeds
(stated as a hypothesis where needed). -/
def selectedFromIds (catalog : Catalog) (ids : List (List Char)) : List SelectedHeuristic :=
  ids.filterMap (fun hid => (dget catalog hid).map (mkSelected hid))

/-- `HeuristicsModel.get_relevant_heuristics` (heuristics.py), parametrised by
the completion-call outcome and by the list `sample` that `random.sample`
returns when the fallback path runs.  On a 200 response the payload is
stripped, split on commas, each piece stripped and filtered against the
catalog; on a non-200 response the accumulator is returned empty; on an
exception the random sample is used. -/
def get_relevant_heuristics (catalog : Catalog) (outcome : ApiOutcome)
    (sample : List (List Char)) : List SelectedHeuristic :=
  match outcome with
  | .resp status obj =>
    if status = 200 then
      selectedFromIds catalog ((splitChar ',' (pyStrip obj)).map pyStrip)
    else []
  | .exn => selectedFromIds catalog sample

def investKw : List (List Char) := [pstr "invest", pstr "purchase", pstr "buy", pstr "spend"]

def saveKw : List (List Char) := [pstr "save", pstr "reduce cost", pstr "minimize"]

def customerKw : List (List Char) := [pstr "customer", pstr "service", pstr "experience", pstr "quality"]

def growthKw : List (List Char) := [pstr "expand", pstr "grow", pstr "improve", pstr "upgrade"]

def safeKw : List (List Char) := [pstr "safe", pstr "secure", pstr "protect"]

def riskyKw : List (List Char) := [pstr "risky", pstr "aggressive", pstr "ambitious"]

/-- `HeuristicsModel._calculate_fallback_impacts` (heuristics.py).
`random.randint` is modelled by the parameter `randint`; theorems constrain
it only by the library guarantee `a ≤ randint a b ≤ b`.  The scenario
description and the heuristics list are accepted and ignored, exactly as in
the source. -/
def calculate_fallback_impacts (scenario_description choice_description : List Char)
    (relevant_heuristics : List SelectedHeuristic) (randint : Int → Int → Int) : PyDict :=
  let choice_lower := pyLower choice_description
  let cash_flow : Int :=
    if kwAny choice_lower investKw then randint (-25000) (-10000)
    else if kwAny choice_lower saveKw then randint 5000 15000
    else 0
  let customer_satisfaction : Int :=
    if kwAny choice_lower customerKw then randint 5 15 else 0
  let growth_potential : Int :=
    if kwAny choice_lower growthKw then randint 5 15 else 0
  let risk_level : Int :=
    if kwAny choice_lower safeKw then randint (-15) (-5)
    else if kwAny choice_lower riskyKw then randint 5 15 else 0
  [("cash_flow", cash_flow), ("customer_satisfaction", customer_satisfaction),
   ("growth_potential", growth_potential), ("risk_level", risk_level)]

/-- The conditional clamp `if not (lo <= d[k] <= hi): d[k] = max(lo, min(hi, d[k]))`
used by the validation block of `calculate_metric_impacts`. -/
def clampField (imp : PyDict) (k : String) (lo hi : Int) : PyDict :=
  match dget imp k with
  | some v => if ¬ (lo ≤ v ∧ v ≤ hi) then dset imp k (max lo (min hi v)) else imp
  | none => imp

/-- The validation block of `calculate_metric_impacts`: require all four keys
(`ValueError`, i.e. `none`, otherwise), then clamp cash_flow to
`[-50000, 25000]` and the three percentage deltas to `[-25, 25]`. -/
def clampImpacts (impacts : PyDict) : Option PyDict :=
  if (dget impacts "cash_flow").isSome ∧ (dget impacts "customer_satisfaction").isSome
      ∧ (dget impacts "growth_potential").isSome ∧ (dget impacts "risk_level").isSome then
    some (clampField (clampField (clampField (clampField impacts
      "cash_flow" (-50000) 25000)
      "customer_satisfaction" (-25) 25)
      "growth_potential" (-25) 25)
      "risk_level" (-25) 25)
  else none

/-- `HeuristicsModel.calculate_metric_impacts` (heuristics.py).  Each of the
three attempts is summarised by the dict its response parsed to, or `none`
when the attempt failed before validation (exception, non-200 status, empty
payload, or JSON decode error); the first attempt that survives validation is
returned clamped, otherwise the keyword fallback engine runs. -/
def calculate_metric_impacts (attempt1 attempt2 attempt3 : Option PyDict)
    (scenario_description choice_description : List Char)
    (relevant_heuristics : List SelectedHeuristic) (randint : Int → Int → Int) : PyDict :=
  match attempt1.bind clampImpacts with
  | some out => out
  | none =>
    match attempt2.bind clampImpacts with
    | some out => out
    | none =>
      match attempt3.bind clampImpacts with
      | some out => out
      | none =>
        calculate_fallback_impacts scenario_description choice_description
          relevant_heuristics randint

/-- The fixed apology returned by `generate_final_analysis` on exception. -/
def finalApology : List Char :=
  pstr "Unable to generate comprehensive analysis. Please review the decision history and metrics to assess the overall journey."

/-- `HeuristicsModel.generate_final_analysis` (heuristics.py), parametrised by
the completion-call outcome.  The decision history and final metrics shape
only the prompt sent out, not the value returned, and are ignored here; a 200
response returns its stripped payload, a non-200 response falls out of the
`try` block with no `return` statement (Python's implicit `None`, embedded as
`none`), and an exception returns the fixed apology. -/
def generate_final_analysis (decision_history : List PyDict) (final_metrics : PyDict)
    (outcome : ApiOutcome) : Option (List Char) :=
  match outcome with
  | .resp status obj => if status = 200 then some (pyStrip obj) else none
  | .exn => some finalApology

/-- A one-entry demonstration catalog record used by concrete witnesses. -/
def demoInfo : HeuristicInfo := ⟨"Demo", "demo description", "demo applicability", "demo limitations"⟩

/-- One option of a scenario (generator.py dict literal). -/
structure ScenOption where
  title : List Char
  description : List Char
deriving DecidableEq

/-- The scenario dict built by `generate_fallback_scenario` (generator.py). -/
structure Scenario where
  sub_module_name : List Char
  description : List Char
  option_a : ScenOption
  option_b : ScenOption
deriving DecidableEq

/-- Python list indexing `l[i]`, including negative indices from the end;
`none` models an `IndexError`. -/
def pyListGet {α : Type} (l : List α) (i : Int) : Option α :=
  if 0 ≤ i then l[i.toNat]?
  else if (-i).toNat ≤ l.length then l[l.length - (-i).toNat]? else none

/-- The fleet/vehicle aspects table of `generate_fallback_scenario`. -/
def fleetAspects : List (List Char × List Char × List Char) :=
  [(pstr "Route Optimization", pstr "Implement new routing software vs. Enhance current system", pstr "Fleet Efficiency Planning"),
   (pstr "Maintenance Schedule", pstr "Preventive maintenance program vs. As-needed repairs", pstr "Vehicle Maintenance Strategy"),
   (pstr "Vehicle Acquisition", pstr "Purchase new vehicles vs. Lease with maintenance", pstr "Fleet Expansion Decisions"),
   (pstr "Driver Training", pstr "Comprehensive safety program vs. Basic compliance training", pstr "Team Development Focus"),
   (pstr "Fuel Efficiency", pstr "Invest in fuel monitoring vs. Driver incentive program", pstr "Resource Management Planning")]

/-- The staff/employee aspects table of `generate_fallback_scenario`. -/
def staffAspects : List (List Char × List Char × List Char) :=
  [(pstr "Training Program", pstr "Structured training vs. On-the-job learning", pstr "Staff Development Framework"),
   (pstr "Compensation", pstr "Performance bonuses vs. Higher base pay", pstr "Team Compensation Strategy"),
   (pstr "Scheduling", pstr "Fixed shifts vs. Flexible hours", pstr "Workforce Schedule Planning"),
   (pstr "Development", pstr "Career advancement vs. Skill specialization", pstr "Career Growth Initiatives"),
   (pstr "Team Building", pstr "Regular events vs. Project-based collaboration", pstr "Team Culture Building")]

/-- The market aspects table of `generate_fallback_scenario`. -/
def marketAspects : List (List Char × List Char × List Char) :=
  [(pstr "Target Analysis", pstr "Focus on core demographic vs. Market expansion", pstr "Market Research Phase"),
   (pstr "Promotion Strategy", pstr "Digital marketing vs. Local partnerships", pstr "Marketing Channel Selection"),
   (pstr "Pricing Model", pstr "Premium positioning vs. Competitive pricing", pstr "Price Strategy Development"),
   (pstr "Service Offering", pstr "Specialized services vs. Broad coverage", pstr "Service Portfolio Planning"),
   (pstr "Growth Plan", pstr "Intensive local growth vs. Geographic expansion", pstr "Expansion Strategy Design")]

/-- The generic aspects table of `generate_fallback_scenario`. -/
def genericAspects : List (List Char × List Char × List Char) :=
  [(pstr "Initial Strategy", pstr "Aggressive approach vs. Gradual implementation", pstr "Strategic Foundation Setting"),
   (pstr "Resource Allocation", pstr "Heavy investment vs. Measured spending", pstr "Resource Planning Phase"),
   (pstr "Process Implementation", pstr "Complete overhaul vs. Phased rollout", pstr "Implementation Approach"),
   (pstr "Team Structure", pstr "Specialized roles vs. Cross-training", pstr "Organizational Design"),
   (pstr "Future Planning", pstr "Short-term results vs. Long-term development", pstr "Growth Strategy Planning")]

/-- `generate_fallback_scenario` (generator.py): keyword match on the
lower-cased topic selects an aspects table, entry `min(step - 1, len - 1)`
(Python indexing, so a negative index would count from the end) supplies the
aspect; the returned dict interpolates the topic and the aspect name. -/
def generate_fallback_scenario (topic : List Char) (step : Int) : Option Scenario :=
  let topic_lower := pyLower topic
  let aspects :=
    if hasSub (pstr "fleet") topic_lower || hasSub (pstr "vehicle") topic_lower then
      fleetAspects
    else if hasSub (pstr "staff") topic_lower || hasSub (pstr "employee") topic_lower then
      staffAspects
    else if hasSub (pstr "market") topic_lower then marketAspects
    else genericAspects
  match pyListGet aspects (min (step - 1) ((aspects.length : Int) - 1)) with
  | none => none
  | some aspect =>
    some
      { sub_module_name := aspect.2.2
        description := pstr "Your franchise needs to make decisions about " ++ topic
          ++ pstr " focusing on " ++ aspect.1 ++ pstr "."
        option_a := ⟨pstr "Comprehensive " ++ aspect.1,
          pstr "Implement a full-scale approach to " ++ aspect.1
            ++ pstr " with significant resource allocation."⟩
        option_b := ⟨pstr "Focused " ++ aspect.1,
          pstr "Take a targeted approach to " ++ aspect.1
            ++ pstr " with minimal disruption to current operations."⟩ }

/-- Result of `json.loads` on one stream chunk, abstracted to the two fields
the parser inspects; `none` models a `JSONDecodeError`. -/
structure JChunk where
  message : Option (List Char)
  object : Option (List Char)

/-- The backward scan of `parse_streaming_response` (generator.py), applied to
the already-reversed chunk list: skip undecodable chunks, skip loader or
`[DONE]` marker messages, stop at the first `message` (else `object`) payload;
an exhausted scan leaves the initial empty content. -/
def extractContent (loads : List Char → Option JChunk) : List (List Char) → List Char
  | [] => []
  | chunk :: rest =>
    match loads (pyStrip (chunk.drop 5)) with
    | none => extractContent loads rest
    | some d =>
      match d.message with
      | some m =>
        if hasSub (pstr "loader") m || m = pstr "[DONE]" then extractContent loads rest
        else m
      | none =>
        match d.object with
        | some o => o
        | none => extractContent loads rest

/-- `parse_streaming_response` (generator.py), parametrised by the (pure)
`json.loads` of the standard library: keep the lines that start with `data:`;
with no such line return the raw text unchanged, otherwise scan the chunks
from the end and strip the extracted content. -/
def parse_streaming_response (loads : List Char → Option JChunk)
    (response_text : List Char) : List Char :=
  let chunks := (splitChar '\n' response_text).filter (fun l => leadsWith (pstr "data:") l)
  if chunks = [] then response_text
  else pyStrip (extractContent loads chunks.reverse)

lemma dget_dset_self {κ β : Type} [DecidableEq κ] (d : List (κ × β)) (k : κ) (v : β) :
    dget (dset d k v) k = some v := by
  induction d with
  | nil => simp [dget, dset]
  | cons hd tl ih =>
    obtain ⟨k0, v0⟩ := hd
    by_cases h : k0 = k <;> simp [dget, dset, h, ih]

lemma dget_dset_ne {κ β : Type} [DecidableEq κ] (d : List (κ × β)) (k k2 : κ) (v : β)
    (h : k2 ≠ k) : dget (dset d k v) k2 = dget d k2 := by
  have hne : k ≠ k2 := fun hh => h hh.symm
  induction d with
  | nil => simp [dget, dset, hne]
  | cons hd tl ih =>
    obtain ⟨k0, v0⟩ := hd
    by_cases hk : k0 = k
    · subst hk
      simp [dget, dset, hne]
    · simp [dget, dset, hk, ih]

lemma dget_some_mem_dkeys {κ β : Type} [DecidableEq κ] {d : List (κ × β)} {k : κ} {v : β}
    (h : dget d k = some v) : k ∈ dkeys d := by
  induction d with
  | nil => simp [dget] at h
  | cons hd tl ih =>
    obtain ⟨k0, v0⟩ := hd
    by_cases hk : k0 = k
    · simp [dkeys, hk]
    · simp only [dget, hk, if_false] at h
      simp [dkeys] at ih ⊢
      exact Or.inr (ih h)

lemma applyOne_get_ne {d d2 : PyDict} {k k2 : String} {v : Int}
    (h : applyOne d k v = some d2) (hne : k2 ≠ k) : dget d2 k2 = dget d k2 := by
  unfold applyOne at h
  cases hcur : dget d k with
  | none => rw [hcur] at h; exact absurd h (by simp)
  | some c =>
    rw [hcur] at h
    simp only [Option.some.injEq] at h
    subst h
    exact dget_dset_ne _ _ _ _ hne

lemma applyAll_get_not_mem {imp : PyDict} {k : String} :
    ∀ {d m : PyDict}, k ∉ dkeys imp → applyAll d imp = some m → dget m k = dget d k := by
  induction imp with
  | nil =>
    intro d m _ h
    simp only [applyAll, Option.some.injEq] at h
    subst h; rfl
  | cons hd tl ih =>
    intro d m hmem h
    obtain ⟨k0, v0⟩ := hd
    simp only [dkeys, List.map_cons, List.mem_cons] at hmem
    push_neg at hmem
    obtain ⟨hne, hrest⟩ := hmem
    simp only [applyAll] at h
    cases h1 : applyOne d k0 v0 with
    | none => rw [h1] at h; exact absurd h (by simp)
    | some d2 =>
      rw [h1] at h
      have := ih hrest h
      rw [this, applyOne_get_ne h1 hne]

lemma applyAll_get_mem {imp : PyDict} {k : String} {v : Int} :
    ∀ {d m : PyDict}, (dkeys imp).Nodup → (k, v) ∈ imp → applyAll d imp = some m →
      ∃ c, dget d k = some c ∧
        dget m k = some (if k ≠ "cash_flow" then max 0 (min 100 (c + v)) else c + v) := by
  induction imp with
  | nil => intro d m _ hmem _; exact absurd hmem (by simp)
  | cons hd tl ih =>
    intro d m hnd hmem h
    obtain ⟨k0, v0⟩ := hd
    simp only [dkeys, List.map_cons, List.nodup_cons] at hnd
    obtain ⟨hk0, hndtl⟩ := hnd
    simp only [applyAll] at h
    cases h1 : applyOne d k0 v0 with
    | none => rw [h1] at h; exact absurd h (by simp)
    | some d2 =>
      rw [h1] at h
      rcases List.mem_cons.mp hmem with heq | htl
      · obtain ⟨hk, hv⟩ := Prod.mk.injEq .. ▸ heq
        subst hk; subst hv
        have hknotin : k ∉ dkeys tl := hk0
        have hcur : ∃ c, dget d k = some c ∧
            d2 = dset d k (if k ≠ "cash_flow" then max 0 (min 100 (c + v)) else c + v) := by
          unfold applyOne at h1
          cases hg : dget d k with
          | none => rw [hg] at h1; exact absurd h1 (by simp)
          | some c =>
            rw [hg] at h1
            simp only [Option.some.injEq] at h1
            exact ⟨c, rfl, h1.symm⟩
        obtain ⟨c, hgc, hd2⟩ := hcur
        refine ⟨c, hgc, ?_⟩
        have hfin := applyAll_get_not_mem hknotin h
        rw [hfin, hd2, dget_dset_self]
      · have hne : k ≠ k0 := by
          intro hkk
          subst hkk
          exact hk0 (List.mem_map.mpr ⟨(k, v), htl, rfl⟩)
        obtain ⟨c, hgc, hgm⟩ := ih hndtl htl h
        refine ⟨c, ?_, hgm⟩
        rw [← hgc, applyOne_get_ne h1 hne]

/-- C2: for every metrics state and every impacts delta (a Python dict, so
with each of the four metric keys bound once), after `apply_metric_impacts`
the fields customer_satisfaction, growth_potential and risk_level each lie in
`[0, 100]`, while cash_flow is exactly the old value plus the delta, with no
clamping. -/
theorem apply_metric_impacts_bounds (cur imp m : PyDict) (dc ds dg dr : Int)
    (hnd : (dkeys imp).Nodup)
    (hc : ("cash_flow", dc) ∈ imp) (hs : ("customer_satisfaction", ds) ∈ imp)
    (hg : ("growth_potential", dg) ∈ imp) (hr : ("risk_level", dr) ∈ imp)
    (h : apply_metric_impacts cur imp = some m) :
    (∃ v, dget m "customer_satisfaction" = some v ∧ 0 ≤ v ∧ v ≤ 100) ∧
    (∃ v, dget m "growth_potential" = some v ∧ 0 ≤ v ∧ v ≤ 100) ∧
    (∃ v, dget m "risk_level" = some v ∧ 0 ≤ v ∧ v ≤ 100) ∧
    (∃ c, dget cur "cash_flow" = some c ∧ dget m "cash_flow" = some (c + dc)) := by
  refine ⟨?_, ?_, ?_, ?_⟩
  · obtain ⟨c, _, hgm⟩ := applyAll_get_mem hnd hs h
    exact ⟨_, by simpa using hgm, by constructor <;> omega⟩
  · obtain ⟨c, _, hgm⟩ := applyAll_get_mem hnd hg h
    exact ⟨_, by simpa using hgm, by constructor <;> omega⟩
  · obtain ⟨c, _, hgm⟩ := applyAll_get_mem hnd hr h
    exact ⟨_, by simpa using hgm, by constructor <;> omega⟩
  · obtain ⟨c, hgc, hgm⟩ := applyAll_get_mem hnd hc h
    exact ⟨c, hgc, by simpa using hgm⟩

/-- Witness for C2 at the concrete initial state and the spec's example delta. -/
theorem apply_metric_impacts_bounds_witness :
    ((∃ v, dget [("cash_flow", (80000 : Int)), ("customer_satisfaction", 60),
        ("growth_potential", 58), ("risk_level", 25)] "customer_satisfaction"
          = some v ∧ 0 ≤ v ∧ v ≤ 100) ∧
     (∃ v, dget [("cash_flow", (80000 : Int)), ("customer_satisfaction", 60),
        ("growth_potential", 58), ("risk_level", 25)] "growth_potential"
          = some v ∧ 0 ≤ v ∧ v ≤ 100) ∧
     (∃ v, dget [("cash_flow", (80000 : Int)), ("customer_satisfaction", 60),
        ("growth_potential", 58), ("risk_level", 25)] "risk_level"
          = some v ∧ 0 ≤ v ∧ v ≤ 100) ∧
     (∃ c, dget INITIAL_METRICS "cash_flow" = some c ∧
        dget [("cash_flow", (80000 : Int)), ("customer_satisfaction", 60),
          ("growth_potential", 58), ("risk_level", 25)] "cash_flow" = some (c + -20000))) :=
  apply_metric_impacts_bounds INITIAL_METRICS
    [("cash_flow", -20000), ("customer_satisfaction", 10),
     ("growth_potential", 8), ("risk_level", -5)]
    [("cash_flow", 80000), ("customer_satisfaction", 60),
     ("growth_potential", 58), ("risk_level", 25)]
    (-20000) 10 8 (-5)
    (by decide) (by decide) (by decide) (by decide) (by decide) (by decide)

/-- C10: `apply_metric_impacts` does not mutate its input (the source updates
a fresh copy, embedded here as returning a new dict), and every metric whose
key does not appear in the impacts dict keeps its input value in the result. -/
theorem apply_metric_impacts_frame (cur imp m : PyDict) (k : String)
    (hk : k ∉ dkeys imp) (h : apply_metric_impacts cur imp = some m) :
    dget m k = dget cur k :=
  applyAll_get_not_mem hk h

/-- Witness for C10: a key absent from the impacts dict is left unchanged. -/
theorem apply_metric_impacts_frame_witness :
    ("customer_satisfaction" ∉ dkeys [("cash_flow", (-20000 : Int))]) ∧
    apply_metric_impacts INITIAL_METRICS [("cash_flow", -20000)]
      = some [("cash_flow", 80000), ("customer_satisfaction", 50),
              ("growth_potential", 50), ("risk_level", 30)] ∧
    dget [("cash_flow", (80000 : Int)), ("customer_satisfaction", 50),
          ("growth_potential", 50), ("risk_level", 30)] "customer_satisfaction"
      = dget INITIAL_METRICS "customer_satisfaction" :=
  ⟨by decide, by decide,
   apply_metric_impacts_frame INITIAL_METRICS [("cash_flow", -20000)]
     [("cash_flow", 80000), ("customer_satisfaction", 50),
      ("growth_potential", 50), ("risk_level", 30)]
     "customer_satisfaction" (by decide) (by decide)⟩

lemma c3_health_eval :
    calculate_business_health
      [("cash_flow", 80000), ("customer_satisfaction", 60),
       ("growth_potential", 58), ("risk_level", 25)] = some 59 := by
  have h : calculate_business_health
      [("cash_flow", 80000), ("customer_satisfaction", 60),
       ("growth_potential", 58), ("risk_level", 25)]
      = some (healthFromValues 80000 60 58 25) := rfl
  rw [h]
  simp only [Option.some.injEq]
  unfold healthFromValues
  norm_num

/-- C3 counterexample: the example transition does yield metrics
`{80000, 60, 58, 25}` and health score 59, but `get_business_status 59`
returns "Challenged" (59 < 60), not "Stable" as the claim states. -/
theorem business_status_59_not_stable :
    apply_metric_impacts INITIAL_METRICS
      [("cash_flow", -20000), ("customer_satisfaction", 10),
       ("growth_potential", 8), ("risk_level", -5)]
      = some [("cash_flow", 80000), ("customer_satisfaction", 60),
              ("growth_potential", 58), ("risk_level", 25)] ∧
    calculate_business_health
      [("cash_flow", 80000), ("customer_satisfaction", 60),
       ("growth_potential", 58), ("risk_level", 25)] = some 59 ∧
    (get_business_status 59).1 ≠ "Stable" :=
  ⟨by decide, c3_health_eval, by decide⟩

/-- C3 as amended: the end-to-end scenario yields metrics `{80000, 60, 58, 25}`
and health score 59, and `get_business_status 59` returns status "Challenged". -/
theorem end_to_end_scenario_challenged :
    apply_metric_impacts INITIAL_METRICS
      [("cash_flow", -20000), ("customer_satisfaction", 10),
       ("growth_potential", 8), ("risk_level", -5)]
      = some [("cash_flow", 80000), ("customer_satisfaction", 60),
              ("growth_potential", 58), ("risk_level", 25)] ∧
    calculate_business_health
      [("cash_flow", 80000), ("customer_satisfaction", 60),
       ("growth_potential", 58), ("risk_level", 25)] = some 59 ∧
    get_business_status 59
      = ("Challenged", "Your franchise faces some challenges but remains viable.") :=
  ⟨by decide, c3_health_eval, by decide⟩

lemma clampField_get_self (imp : PyDict) (k : String) (lo hi v : Int)
    (hget : dget imp k = some v) (hlohi : lo ≤ hi) :
    ∃ w, dget (clampField imp k lo hi) k = some w ∧ lo ≤ w ∧ w ≤ hi := by
  by_cases hcond : ¬ (lo ≤ v ∧ v ≤ hi)
  · have hres : clampField imp k lo hi = dset imp k (max lo (min hi v)) := by
      unfold clampField
      rw [hget]
      exact if_pos hcond
    rw [hres]
    exact ⟨max lo (min hi v), dget_dset_self _ _ _, le_max_left _ _,
      max_le hlohi (min_le_left _ _)⟩
  · have hres : clampField imp k lo hi = imp := by
      unfold clampField
      rw [hget]
      exact if_neg hcond
    rw [hres]
    push_neg at hcond
    exact ⟨v, hget, hcond.1, hcond.2⟩

lemma clampField_get_ne (imp : PyDict) (k k2 : String) (lo hi : Int) (hne : k2 ≠ k) :
    dget (clampField imp k lo hi) k2 = dget imp k2 := by
  cases hget : dget imp k with
  | none =>
    have hres : clampField imp k lo hi = imp := by
      unfold clampField
      rw [hget]
    rw [hres]
  | some v =>
    by_cases hcond : ¬ (lo ≤ v ∧ v ≤ hi)
    · have hres : clampField imp k lo hi = dset imp k (max lo (min hi v)) := by
        unfold clampField
        rw [hget]
        exact if_pos hcond
      rw [hres]
      exact dget_dset_ne _ _ _ _ hne
    · have hres : clampField imp k lo hi = imp := by
        unfold clampField
        rw [hget]
        exact if_neg hcond
      rw [hres]

lemma clampImpacts_ok {imp out : PyDict} (h : clampImpacts imp = some out) :
    (∃ v, dget out "cash_flow" = some v ∧ -50000 ≤ v ∧ v ≤ 25000) ∧
    (∃ v, dget out "customer_satisfaction" = some v ∧ -25 ≤ v ∧ v ≤ 25) ∧
    (∃ v, dget out "growth_potential" = some v ∧ -25 ≤ v ∧ v ≤ 25) ∧
    (∃ v, dget out "risk_level" = some v ∧ -25 ≤ v ∧ v ≤ 25) := by
  unfold clampImpacts at h
  by_cases hc : (dget imp "cash_flow").isSome ∧ (dget imp "customer_satisfaction").isSome
      ∧ (dget imp "growth_potential").isSome ∧ (dget imp "risk_level").isSome
  · rw [if_pos hc] at h
    obtain ⟨h1, h2, h3, h4⟩ := hc
    obtain ⟨cf, hcf⟩ := Option.isSome_iff_exists.mp h1
    obtain ⟨cs, hcs⟩ := Option.isSome_iff_exists.mp h2
    obtain ⟨gp, hgp⟩ := Option.isSome_iff_exists.mp h3
    obtain ⟨rl, hrl⟩ := Option.isSome_iff_exists.mp h4
    simp only [Option.some.injEq] at h
    subst h
    refine ⟨?_, ?_, ?_, ?_⟩
    · obtain ⟨w, hw, hlo, hhi⟩ :=
        clampField_get_self imp "cash_flow" (-50000) 25000 cf hcf (by norm_num)
      refine ⟨w, ?_, hlo, hhi⟩
      rw [clampField_get_ne _ "risk_level" "cash_flow" (-25) 25 (by decide),
        clampField_get_ne _ "growth_potential" "cash_flow" (-25) 25 (by decide),
        clampField_get_ne _ "customer_satisfaction" "cash_flow" (-25) 25 (by decide)]
      exact hw
    · have hbase : dget (clampField imp "cash_flow" (-50000) 25000)
          "customer_satisfaction" = some cs := by
        rw [clampField_get_ne _ "cash_flow" "customer_satisfaction" (-50000) 25000
          (by decide)]
        exact hcs
      obtain ⟨w, hw, hlo, hhi⟩ :=
        clampField_get_self (clampField imp "cash_flow" (-50000) 25000)
          "customer_satisfaction" (-25) 25 cs hbase (by norm_num)
      refine ⟨w, ?_, hlo, hhi⟩
      rw [clampField_get_ne _ "risk_level" "customer_satisfaction" (-25) 25 (by decide),
        clampField_get_ne _ "growth_potential" "customer_satisfaction" (-25) 25 (by decide)]
      exact hw
    · have hbase : dget (clampField (clampField imp "cash_flow" (-50000) 25000)
          "customer_satisfaction" (-25) 25) "growth_potential" = some gp := by
        rw [clampField_get_ne _ "customer_satisfaction" "growth_potential" (-25) 25
            (by decide),
          clampField_get_ne _ "cash_flow" "growth_potential" (-50000) 25000 (by decide)]
        exact hgp
      obtain ⟨w, hw, hlo, hhi⟩ :=
        clampField_get_self (clampField (clampField imp "cash_flow" (-50000) 25000)
          "customer_satisfaction" (-25) 25) "growth_potential" (-25) 25 gp hbase
          (by norm_num)
      refine ⟨w, ?_, hlo, hhi⟩
      rw [clampField_get_ne _ "risk_level" "growth_potential" (-25) 25 (by decide)]
      exact hw
    · have hbase : dget (clampField (clampField (clampField imp
          "cash_flow" (-50000) 25000) "customer_satisfaction" (-25) 25)
          "growth_potential" (-25) 25) "risk_level" = some rl := by
        rw [clampField_get_ne _ "growth_potential" "risk_level" (-25) 25 (by decide),
          clampField_get_ne _ "customer_satisfaction" "risk_level" (-25) 25 (by decide),
          clampField_get_ne _ "cash_flow" "risk_level" (-50000) 25000 (by decide)]
        exact hrl
      exact clampField_get_self (clampField (clampField (clampField imp
        "cash_flow" (-50000) 25000) "customer_satisfaction" (-25) 25)
        "growth_potential" (-25) 25) "risk_level" (-25) 25 rl hbase (by norm_num)
  · rw [if_neg hc] at h
    exact absurd h (by simp)

lemma fallback_in_ranges (scenario choice : List Char) (heur : List SelectedHeuristic)
    (randint : Int → Int → Int)
    (hrand : ∀ a b : Int, a ≤ b → a ≤ randint a b ∧ randint a b ≤ b) :
    (∃ v, dget (calculate_fallback_impacts scenario choice heur randint) "cash_flow"
        = some v ∧ -50000 ≤ v ∧ v ≤ 25000) ∧
    (∃ v, dget (calculate_fallback_impacts scenario choice heur randint) "customer_satisfaction"
        = some v ∧ -25 ≤ v ∧ v ≤ 25) ∧
    (∃ v, dget (calculate_fallback_impacts scenario choice heur randint) "growth_potential"
        = some v ∧ -25 ≤ v ∧ v ≤ 25) ∧
    (∃ v, dget (calculate_fallback_impacts scenario choice heur randint) "risk_level"
        = some v ∧ -25 ≤ v ∧ v ≤ 25) := by
  have hcf : dget (calculate_fallback_impacts scenario choice heur randint) "cash_flow"
      = some (if kwAny (pyLower choice) investKw then randint (-25000) (-10000)
          else if kwAny (pyLower choice) saveKw then randint 5000 15000 else 0) := rfl
  have hcs : dget (calculate_fallback_impacts scenario choice heur randint)
      "customer_satisfaction"
      = some (if kwAny (pyLower choice) customerKw then randint 5 15 else 0) := rfl
  have hgp : dget (calculate_fallback_impacts scenario choice heur randint) "growth_potential"
      = some (if kwAny (pyLower choice) growthKw then randint 5 15 else 0) := rfl
  have hrl : dget (calculate_fallback_impacts scenario choice heur randint) "risk_level"
      = some (if kwAny (pyLower choice) safeKw then randint (-15) (-5)
          else if kwAny (pyLower choice) riskyKw then randint 5 15 else 0) := rfl
  refine ⟨?_, ?_, ?_, ?_⟩
  · rw [hcf]
    by_cases h1 : kwAny (pyLower choice) investKw = true
    · rw [if_pos h1]
      obtain ⟨ha, hb⟩ := hrand (-25000) (-10000) (by norm_num)
      exact ⟨_, rfl, by omega, by omega⟩
    · rw [if_neg h1]
      by_cases h2 : kwAny (pyLower choice) saveKw = true
      · rw [if_pos h2]
        obtain ⟨ha, hb⟩ := hrand 5000 15000 (by norm_num)
        exact ⟨_, rfl, by omega, by omega⟩
      · rw [if_neg h2]
        exact ⟨0, rfl, by norm_num, by norm_num⟩
  · rw [hcs]
    by_cases h1 : kwAny (pyLower choice) customerKw = true
    · rw [if_pos h1]
      obtain ⟨ha, hb⟩ := hrand 5 15 (by norm_num)
      exact ⟨_, rfl, by omega, by omega⟩
    · rw [if_neg h1]
      exact ⟨0, rfl, by norm_num, by norm_num⟩
  · rw [hgp]
    by_cases h1 : kwAny (pyLower choice) growthKw = true
    · rw [if_pos h1]
      obtain ⟨ha, hb⟩ := hrand 5 15 (by norm_num)
      exact ⟨_, rfl, by omega, by omega⟩
    · rw [if_neg h1]
      exact ⟨0, rfl, by norm_num, by norm_num⟩
  · rw [hrl]
    by_cases h1 : kwAny (pyLower choice) safeKw = true
    · rw [if_pos h1]
      obtain ⟨ha, hb⟩ := hrand (-15) (-5) (by norm_num)
      exact ⟨_, rfl, by omega, by omega⟩
    · rw [if_neg h1]
      by_cases h2 : kwAny (pyLower choice) riskyKw = true
      · rw [if_pos h2]
        obtain ⟨ha, hb⟩ := hrand 5 15 (by norm_num)
        exact ⟨_, rfl, by omega, by omega⟩
      · rw [if_neg h2]
        exact ⟨0, rfl, by norm_num, by norm_num⟩

/-- C1: every `MetricsDelta` returned by `calculate_metric_impacts`, on the
API path (a validated attempt) as well as through the keyword fallback
engine, binds all four metric keys, with cash_flow in `[-50000, 25000]` and
each of the other three in `[-25, 25]`. -/
theorem calculate_metric_impacts_in_ranges (a1 a2 a3 : Option PyDict)
    (scenario choice : List Char) (heur : List SelectedHeuristic)
    (randint : Int → Int → Int)
    (hrand : ∀ a b : Int, a ≤ b → a ≤ randint a b ∧ randint a b ≤ b) :
    (∃ v, dget (calculate_metric_impacts a1 a2 a3 scenario choice heur randint) "cash_flow"
        = some v ∧ -50000 ≤ v ∧ v ≤ 25000) ∧
    (∃ v, dget (calculate_metric_impacts a1 a2 a3 scenario choice heur randint)
        "customer_satisfaction" = some v ∧ -25 ≤ v ∧ v ≤ 25) ∧
    (∃ v, dget (calculate_metric_impacts a1 a2 a3 scenario choice heur randint)
        "growth_potential" = some v ∧ -25 ≤ v ∧ v ≤ 25) ∧
    (∃ v, dget (calculate_metric_impacts a1 a2 a3 scenario choice heur randint)
        "risk_level" = some v ∧ -25 ≤ v ∧ v ≤ 25) := by
  unfold calculate_metric_impacts
  cases h1 : a1.bind clampImpacts with
  | some out =>
    obtain ⟨imp, _, hcl⟩ := Option.bind_eq_some.mp h1
    exact clampImpacts_ok hcl
  | none =>
    cases h2 : a2.bind clampImpacts with
    | some out =>
      obtain ⟨imp, _, hcl⟩ := Option.bind_eq_some.mp h2
      exact clampImpacts_ok hcl
    | none =>
      cases h3 : a3.bind clampImpacts with
      | some out =>
        obtain ⟨imp, _, hcl⟩ := Option.bind_eq_some.mp h3
        exact clampImpacts_ok hcl
      | none => exact fallback_in_ranges scenario choice heur randint hrand

/-- Witness for C1 on the fallback path with the left-endpoint random draw. -/
theorem calculate_metric_impacts_in_ranges_witness :
    (∃ v, dget (calculate_metric_impacts none none none [] [] [] (fun a _ => a)) "cash_flow"
        = some v ∧ -50000 ≤ v ∧ v ≤ 25000) ∧
    (∃ v, dget (calculate_metric_impacts none none none [] [] [] (fun a _ => a))
        "customer_satisfaction" = some v ∧ -25 ≤ v ∧ v ≤ 25) ∧
    (∃ v, dget (calculate_metric_impacts none none none [] [] [] (fun a _ => a))
        "growth_potential" = some v ∧ -25 ≤ v ∧ v ≤ 25) ∧
    (∃ v, dget (calculate_metric_impacts none none none [] [] [] (fun a _ => a))
        "risk_level" = some v ∧ -25 ≤ v ∧ v ≤ 25) :=
  calculate_metric_impacts_in_ranges none none none [] [] [] (fun a _ => a)
    (fun a _ h => ⟨le_refl a, h⟩)

/-- C4 counterexample: an HTTP 200 response whose payload is empty survives
the `try` block, so no exception is raised and the random fallback never
runs; on a non-empty catalog `get_relevant_heuristics` returns the empty
list, contradicting the claim that every failure mode yields
`min(3, |catalog|)` heuristics. -/
theorem empty_selection_no_fallback :
    ([(pstr "h1", demoInfo)] : Catalog) ≠ [] ∧
    get_relevant_heuristics [(pstr "h1", demoInfo)] (ApiOutcome.resp 200 (pstr "")) [pstr "h1"]
      = [] := by
  exact ⟨by decide, by decide⟩

lemma selectedFromIds_all_found (catalog : Catalog) :
    ∀ {ids : List (List Char)}, (∀ hid ∈ ids, (dget catalog hid).isSome) →
      (selectedFromIds catalog ids).length = ids.length ∧
      (selectedFromIds catalog ids).map (fun e => e.id) = ids := by
  intro ids
  induction ids with
  | nil => intro _; exact ⟨rfl, rfl⟩
  | cons x xs ih =>
    intro hall
    have hx : (dget catalog x).isSome := hall x (List.mem_cons_self x xs)
    obtain ⟨info, hinfo⟩ := Option.isSome_iff_exists.mp hx
    have hxs := ih (fun hid hmem => hall hid (List.mem_cons_of_mem x hmem))
    have hfx : (dget catalog x).map (mkSelected x) = some (mkSelected x info) := by
      rw [hinfo]; rfl
    constructor
    · show (List.filterMap _ (x :: xs)).length = (x :: xs).length
      rw [List.filterMap_cons, hfx]
      simp only [List.length_cons]
      exact congrArg (· + 1) hxs.1
    · show (List.filterMap _ (x :: xs)).map _ = x :: xs
      rw [List.filterMap_cons, hfx, List.map_cons]
      exact congrArg (List.cons x) hxs.2

/-- C4 as amended: the random fallback of `get_relevant_heuristics` runs
exactly when the completion call raises an exception; in that case the result
consists of the `min(3, |catalog|)` sampled catalog ids (nonempty whenever
the catalog is), whereas a 200 response with zero surviving ids, or a non-200
status, returns the empty list with no fallback. -/
theorem heuristics_exception_fallback (catalog : Catalog) (sample : List (List Char))
    (hlen : sample.length = min 3 catalog.length)
    (hmem : ∀ hid ∈ sample, (dget catalog hid).isSome) :
    (get_relevant_heuristics catalog ApiOutcome.exn sample).length = min 3 catalog.length ∧
    (get_relevant_heuristics catalog ApiOutcome.exn sample).map (fun e => e.id) = sample ∧
    (catalog ≠ [] → get_relevant_heuristics catalog ApiOutcome.exn sample ≠ []) := by
  have hsel := selectedFromIds_all_found catalog hmem
  have hres : get_relevant_heuristics catalog ApiOutcome.exn sample
      = selectedFromIds catalog sample := rfl
  refine ⟨by rw [hres, hsel.1, hlen], by rw [hres, hsel.2], ?_⟩
  intro hne hnil
  have hlen0 : (get_relevant_heuristics catalog ApiOutcome.exn sample).length = 0 := by
    rw [hnil]; rfl
  rw [hres, hsel.1, hlen] at hlen0
  have hpos : 0 < catalog.length := List.length_pos.mpr hne
  have hmin : 1 ≤ min 3 catalog.length := le_min (by norm_num) hpos
  omega

/-- Witness for C4 as amended on a one-entry catalog. -/
theorem heuristics_exception_fallback_witness :
    (get_relevant_heuristics [(pstr "h1", demoInfo)] ApiOutcome.exn [pstr "h1"]).length
      = min 3 ([(pstr "h1", demoInfo)] : Catalog).length ∧
    (get_relevant_heuristics [(pstr "h1", demoInfo)] ApiOutcome.exn [pstr "h1"]).map
      (fun e => e.id) = [pstr "h1"] ∧
    (([(pstr "h1", demoInfo)] : Catalog) ≠ [] →
      get_relevant_heuristics [(pstr "h1", demoInfo)] ApiOutcome.exn [pstr "h1"] ≠ []) :=
  heuristics_exception_fallback [(pstr "h1", demoInfo)] [pstr "h1"] (by decide) (by decide)

lemma mem_selectedFromIds {catalog : Catalog} {ids : List (List Char)}
    {e : SelectedHeuristic} (he : e ∈ selectedFromIds catalog ids) :
    e.id ∈ dkeys catalog := by
  unfold selectedFromIds at he
  obtain ⟨hid, _, heq⟩ := List.mem_filterMap.mp he
  cases hinfo : dget catalog hid with
  | none => rw [hinfo] at heq; exact absurd heq (by simp)
  | some info =>
    rw [hinfo] at heq
    have hme : mkSelected hid info = e := by simpa using heq
    rw [← hme]
    exact dget_some_mem_dkeys hinfo

/-- C5: every heuristic returned by `get_relevant_heuristics`, on the API
path as well as on the random fallback, has an id that is a key of the
catalog; ids in the reply that are not catalog keys are dropped without any
error. -/
theorem heuristics_ids_from_catalog (catalog : Catalog) (outcome : ApiOutcome)
    (sample : List (List Char)) (e : SelectedHeuristic)
    (he : e ∈ get_relevant_heuristics catalog outcome sample) :
    e.id ∈ dkeys catalog := by
  cases outcome with
  | exn => exact mem_selectedFromIds he
  | resp status obj =>
    simp only [get_relevant_heuristics] at he
    by_cases hs : status = 200
    · rw [if_pos hs] at he
      exact mem_selectedFromIds he
    · rw [if_neg hs] at he
      exact absurd he (by simp)

/-- Witness for C5: a reply naming one valid and one unknown id keeps only
the valid one, whose id is a catalog key. -/
theorem heuristics_ids_from_catalog_witness :
    mkSelected (pstr "h1") demoInfo ∈
      get_relevant_heuristics [(pstr "h1", demoInfo)]
        (ApiOutcome.resp 200 (pstr "h1, bogus")) [] ∧
    (mkSelected (pstr "h1") demoInfo).id ∈ dkeys [(pstr "h1", demoInfo)] :=
  ⟨by decide,
   heuristics_ids_from_catalog [(pstr "h1", demoInfo)]
     (ApiOutcome.resp 200 (pstr "h1, bogus")) []
     (mkSelected (pstr "h1") demoInfo) (by decide)⟩

/-- C6: for a choice whose lower-cased text contains an invest/purchase/buy/
spend keyword, the fallback engine draws cash_flow from `[-25000, -10000]`
(the save branch is skipped by the `elif`); every metric whose keyword group
does not match stays exactly 0; and the result is independent of the scenario
description and the heuristics argument. -/
theorem fallback_invest_impacts (scenario scenario2 choice : List Char)
    (heur heur2 : List SelectedHeuristic) (randint : Int → Int → Int)
    (hrand : ∀ a b : Int, a ≤ b → a ≤ randint a b ∧ randint a b ≤ b)
    (hinv : kwAny (pyLower choice) investKw = true) :
    (∃ v, dget (calculate_fallback_impacts scenario choice heur randint) "cash_flow"
        = some v ∧ -25000 ≤ v ∧ v ≤ -10000) ∧
    (kwAny (pyLower choice) customerKw = false →
      dget (calculate_fallback_impacts scenario choice heur randint)
        "customer_satisfaction" = some 0) ∧
    (kwAny (pyLower choice) growthKw = false →
      dget (calculate_fallback_impacts scenario choice heur randint)
        "growth_potential" = some 0) ∧
    (kwAny (pyLower choice) safeKw = false → kwAny (pyLower choice) riskyKw = false →
      dget (calculate_fallback_impacts scenario choice heur randint)
        "risk_level" = some 0) ∧
    calculate_fallback_impacts scenario2 choice heur2 randint
      = calculate_fallback_impacts scenario choice heur randint := by
  have hcf : dget (calculate_fallback_impacts scenario choice heur randint) "cash_flow"
      = some (if kwAny (pyLower choice) investKw then randint (-25000) (-10000)
          else if kwAny (pyLower choice) saveKw then randint 5000 15000 else 0) := rfl
  have hcs : dget (calculate_fallback_impacts scenario choice heur randint)
      "customer_satisfaction"
      = some (if kwAny (pyLower choice) customerKw then randint 5 15 else 0) := rfl
  have hgp : dget (calculate_fallback_impacts scenario choice heur randint) "growth_potential"
      = some (if kwAny (pyLower choice) growthKw then randint 5 15 else 0) := rfl
  have hrl : dget (calculate_fallback_impacts scenario choice heur randint) "risk_level"
      = some (if kwAny (pyLower choice) safeKw then randint (-15) (-5)
          else if kwAny (pyLower choice) riskyKw then randint 5 15 else 0) := rfl
  refine ⟨?_, ?_, ?_, ?_, rfl⟩
  · rw [hcf, if_pos hinv]
    obtain ⟨ha, hb⟩ := hrand (-25000) (-10000) (by norm_num)
    exact ⟨_, rfl, ha, hb⟩
  · intro hng
    rw [hcs, if_neg (by simp [hng])]
  · intro hng
    rw [hgp, if_neg (by simp [hng])]
  · intro hng hng2
    rw [hrl, if_neg (by simp [hng]), if_neg (by simp [hng2])]

/-- Witness for C6 on the choice text "Invest in new ovens". -/
theorem fallback_invest_impacts_witness :
    kwAny (pyLower (pstr "Invest in new ovens")) investKw = true ∧
    ((∃ v, dget (calculate_fallback_impacts [] (pstr "Invest in new ovens") []
        (fun a _ => a)) "cash_flow" = some v ∧ -25000 ≤ v ∧ v ≤ -10000) ∧
    (kwAny (pyLower (pstr "Invest in new ovens")) customerKw = false →
      dget (calculate_fallback_impacts [] (pstr "Invest in new ovens") [] (fun a _ => a))
        "customer_satisfaction" = some 0) ∧
    (kwAny (pyLower (pstr "Invest in new ovens")) growthKw = false →
      dget (calculate_fallback_impacts [] (pstr "Invest in new ovens") [] (fun a _ => a))
        "growth_potential" = some 0) ∧
    (kwAny (pyLower (pstr "Invest in new ovens")) safeKw = false →
      kwAny (pyLower (pstr "Invest in new ovens")) riskyKw = false →
      dget (calculate_fallback_impacts [] (pstr "Invest in new ovens") [] (fun a _ => a))
        "risk_level" = some 0) ∧
    calculate_fallback_impacts (pstr "other scenario") (pstr "Invest in new ovens")
        [mkSelected (pstr "h1") demoInfo] (fun a _ => a)
      = calculate_fallback_impacts [] (pstr "Invest in new ovens") [] (fun a _ => a)) :=
  ⟨by decide,
   fallback_invest_impacts [] (pstr "other scenario") (pstr "Invest in new ovens")
     [] [mkSelected (pstr "h1") demoInfo] (fun a _ => a)
     (fun a _ h => ⟨le_refl a, h⟩) (by decide)⟩

/-- C7: the code returns the fixed apology only when the completion call
raises an exception; a completed response with a non-success status falls out
of the `try` block with no `return`, so the function yields Python's `None`
(embedded as `none`) instead of the apology text the claim promises — a slip
against the function's own `-> str` annotation. -/
theorem final_analysis_non200_returns_none :
    generate_final_analysis [] [] (ApiOutcome.resp 500 (pstr "server error")) = none ∧
    generate_final_analysis [] [] ApiOutcome.exn = some finalApology ∧
    finalApology ≠ [] :=
  ⟨rfl, rfl, by decide⟩

/-- C8: for topic "Fleet Management" at step 3 the fallback scenario is
deterministically built from the third fleet-table entry, the "Vehicle
Acquisition" aspect with sub_module_name "Fleet Expansion Decisions". -/
theorem fleet_step3_vehicle_acquisition :
    generate_fallback_scenario (pstr "Fleet Management") 3
      = some
        { sub_module_name := pstr "Fleet Expansion Decisions"
          description := pstr "Your franchise needs to make decisions about Fleet Management focusing on Vehicle Acquisition."
          option_a := ⟨pstr "Comprehensive Vehicle Acquisition",
            pstr "Implement a full-scale approach to Vehicle Acquisition with significant resource allocation."⟩
          option_b := ⟨pstr "Focused Vehicle Acquisition",
            pstr "Take a targeted approach to Vehicle Acquisition with minimal disruption to current operations."⟩ } := by
  decide

/-- C9: the response parser is a pure function of the raw text (and of the
deterministic library JSON decoder), so two calls on the same input extract
the same text. -/
theorem parse_streaming_response_deterministic
    (loads : List Char → Option JChunk) (response_text : List Char) :
    parse_streaming_response loads response_text
      = parse_streaming_response loads response_text := rfl

end FDL
